import Mathlib

/-!
Shallow embedding of `vendor/knative.dev/eventing/pkg/apis/flows/v1/sequence_lifecycle.go`:
the status-propagation engine of the Sequence resource.

The engine's own code (the propagation operations, the mark helpers, `setAddress`,
`IsReady`, `GetCondition`) is translated directly from the Go source.  The generic
condition-set primitive (`apis.NewLivingConditionSet` / `Manage` / `MarkTrue` /
`MarkUnknown` / `MarkFalse` / `IsHappy` from `knative.dev/pkg/apis`) is vendored
code of the repository that is not part of the extracted source, so it is modelled
from the spec (see the doc comments starting `Modelled from the spec:`).

`time.Now()` is modelled as an explicit `now : Nat` argument threaded through every
operation; `LastTransitionTime` is the `ltt` field of a condition.
-/

namespace SequenceLifecycle

/-- Tri-state condition status: `corev1.ConditionTrue / ConditionFalse / ConditionUnknown`. -/
inductive ConditionStatus where
  | ctrue
  | cfalse
  | cunknown
deriving DecidableEq, Repr

/-- `apis.Condition`: `{Type, Status, Reason, Message, LastTransitionTime}`.
`ltt` models `LastTransitionTime` as an abstract timestamp. -/
structure Condition where
  ctype : String
  status : ConditionStatus
  reason : String
  message : String
  ltt : Nat
deriving DecidableEq, Repr

/-- `corev1.ObjectReference` as populated by the engine: apiVersion, kind, name, namespace.
(`nspace` stands for the Go field `Namespace`; `namespace` is a Lean keyword.) -/
structure ObjectReference where
  apiVersion : String
  kind : String
  name : String
  nspace : String
deriving DecidableEq, Repr

/-- `duckv1.Addressable` restricted to the only field the engine reads or writes: `URL`.
`none` models a nil `*apis.URL`. -/
structure Addressable where
  url : Option String
deriving DecidableEq, Repr

/-- `SequenceSubscriptionStatus`: object reference of the subscription plus its ready condition. -/
structure SequenceSubscriptionStatus where
  subscription : ObjectReference
  readyCondition : Condition
deriving DecidableEq, Repr

/-- `SequenceChannelStatus`: object reference of the channel plus its ready condition. -/
structure SequenceChannelStatus where
  channel : ObjectReference
  readyCondition : Condition
deriving DecidableEq, Repr

/-- `SequenceStatus`: the status record the engine mutates.  `conditions` is the
`duckv1.Status.Conditions` collection managed through the condition-set primitive. -/
structure SequenceStatus where
  conditions : List Condition
  subscriptionStatuses : List SequenceSubscriptionStatus
  channelStatuses : List SequenceChannelStatus
  address : Addressable
deriving DecidableEq, Repr

/-- A `messagingv1.Subscription` child snapshot: object metadata plus its status conditions. -/
structure Subscription where
  apiVersion : String
  kind : String
  name : String
  nspace : String
  conditions : List Condition
deriving DecidableEq, Repr

/-- An `eventingduckv1.Channelable` child snapshot: object metadata, status conditions,
and the advertised address (`Status.Address`, a nilable pointer). -/
structure Channelable where
  apiVersion : String
  kind : String
  name : String
  nspace : String
  conditions : List Condition
  address : Option Addressable
deriving DecidableEq, Repr

/-- Condition type names, from the constants of `sequence_lifecycle.go`. -/
def readyType : String := "Ready"

def channelsReadyType : String := "ChannelsReady"

def subscriptionsReadyType : String := "SubscriptionsReady"

def addressableType : String := "Addressable"

def oidcIdentityCreatedType : String := "OIDCIdentityCreated"

/-- The dependent (non-synthetic) condition types of `sCondSet`, in declaration order. -/
def dependents : List String :=
  [channelsReadyType, subscriptionsReadyType, addressableType, oidcIdentityCreatedType]

/-- Modelled from the spec: the condition-set primitive's lookup of a condition by type
(`duckv1.Status.GetCondition` / `conditionsImpl.GetCondition`): the condition currently
associated with the given type, or none. -/
def getCond (conds : List Condition) (t : String) : Option Condition :=
  conds.find? (fun c => c.ctype == t)

/-- Modelled from the spec: the condition-set primitive's `SetCondition`: store the
condition under its type, replacing any condition of the same type, appending otherwise. -/
def setCond (conds : List Condition) (c : Condition) : List Condition :=
  if conds.any (fun c0 => c0.ctype == c.ctype) then
    conds.map (fun c0 => if c0.ctype == c.ctype then c else c0)
  else
    conds ++ [c]

/-- `true` iff a condition of type `t` is present with status `True`
(`GetCondition(t).IsTrue()`; a missing condition is not `True`). -/
def condTrue (conds : List Condition) (t : String) : Bool :=
  match getCond conds t with
  | some c => c.status == ConditionStatus.ctrue
  | none => false

/-- `true` iff a condition of type `t` is present with status `False`. -/
def condFalse (conds : List Condition) (t : String) : Bool :=
  match getCond conds t with
  | some c => c.status == ConditionStatus.cfalse
  | none => false

/-- All four dependent conditions are present with status `True`. -/
def allDepsTrue (conds : List Condition) : Bool :=
  dependents.all (fun t => condTrue conds t)

/-- Some dependent condition is present with status `False`. -/
def anyDepFalse (conds : List Condition) : Bool :=
  dependents.any (fun t => condFalse conds t)

/-- Modelled from the spec: the synthetic `Ready` condition is "a pure conjunction
recomputed by the underlying condition-set primitive whenever any tracked condition
changes": `True` iff all dependents are `True`, `False` when some dependent is `False`,
`Unknown` otherwise. -/
def recomputeReady (now : Nat) (conds : List Condition) : List Condition :=
  let st :=
    if allDepsTrue conds then ConditionStatus.ctrue
    else if anyDepFalse conds then ConditionStatus.cfalse
    else ConditionStatus.cunknown
  setCond conds { ctype := readyType, status := st, reason := "", message := "", ltt := now }

/-- Modelled from the spec: common core of the condition-set primitive's mark operations:
store the given condition and recompute the synthetic `Ready` aggregate ("recomputed
automatically ... whenever a tracked sub-condition changes"). -/
def markCond (now : Nat) (ss : SequenceStatus) (c : Condition) : SequenceStatus :=
  { ss with conditions := recomputeReady now (setCond ss.conditions c) }

/-- Modelled from the spec: `conditionsImpl.MarkTrue t`: set condition `t` to `True`
and recompute the synthetic `Ready` aggregate. -/
def markTrue (now : Nat) (ss : SequenceStatus) (t : String) : SequenceStatus :=
  markCond now ss
    { ctype := t, status := ConditionStatus.ctrue, reason := "", message := "", ltt := now }

/-- Modelled from the spec: `conditionsImpl.MarkTrueWithReason`. -/
def markTrueWithReason (now : Nat) (ss : SequenceStatus) (t r m : String) : SequenceStatus :=
  markCond now ss
    { ctype := t, status := ConditionStatus.ctrue, reason := r, message := m, ltt := now }

/-- Modelled from the spec: `conditionsImpl.MarkUnknown t reason message`: set condition `t`
to `Unknown` with the given reason and message and recompute the `Ready` aggregate. -/
def markUnknown (now : Nat) (ss : SequenceStatus) (t r m : String) : SequenceStatus :=
  markCond now ss
    { ctype := t, status := ConditionStatus.cunknown, reason := r, message := m, ltt := now }

/-- Modelled from the spec: `conditionsImpl.MarkFalse t reason message`. -/
def markFalse (now : Nat) (ss : SequenceStatus) (t r m : String) : SequenceStatus :=
  markCond now ss
    { ctype := t, status := ConditionStatus.cfalse, reason := r, message := m, ltt := now }

/-- `GetCondition` of `SequenceStatus` (line 71): the condition of the given type, or none. -/
def SequenceStatus.getCondition (ss : SequenceStatus) (t : String) : Option Condition :=
  getCond ss.conditions t

/-- `IsReady` (line 76): `sCondSet.Manage(ss).IsHappy()`, i.e. the stored synthetic
`Ready` condition is present with status `True`. -/
def SequenceStatus.isReady (ss : SequenceStatus) : Bool :=
  condTrue ss.conditions readyType

/-- Modelled from the spec: `InitializeConditions` "sets every tracked condition type not
yet present to `Unknown`"; conditions already present are left untouched. -/
def initCond (now : Nat) (conds : List Condition) (t : String) : List Condition :=
  match getCond conds t with
  | some _ => conds
  | none =>
      setCond conds { ctype := t, status := ConditionStatus.cunknown, reason := "", message := "", ltt := now }

/-- Modelled from the spec: `InitializeConditions` (line 81) seeds the synthetic `Ready`
condition and the four dependents, each to `Unknown` when absent. -/
def SequenceStatus.initConditions (now : Nat) (ss : SequenceStatus) : SequenceStatus :=
  { ss with conditions :=
      (readyType :: dependents).foldl (fun cs t => initCond now cs t) ss.conditions }

/-- `MarkChannelsNotReady` (line 177). -/
def SequenceStatus.markChannelsNotReady (now : Nat) (ss : SequenceStatus) (r m : String) :
    SequenceStatus :=
  markUnknown now ss channelsReadyType r m

/-- `MarkSubscriptionsNotReady` (line 181). -/
def SequenceStatus.markSubscriptionsNotReady (now : Nat) (ss : SequenceStatus) (r m : String) :
    SequenceStatus :=
  markUnknown now ss subscriptionsReadyType r m

/-- `MarkAddressableNotReady` (line 185). -/
def SequenceStatus.markAddressableNotReady (now : Nat) (ss : SequenceStatus) (r m : String) :
    SequenceStatus :=
  markUnknown now ss addressableType r m

/-- `setAddress` (lines 189-197): nil address or nil URL clears `Address` and marks
`Addressable` `Unknown` with reason `"emptyAddress"`; otherwise stores the URL and
marks `Addressable` `True`. -/
def SequenceStatus.setAddress (now : Nat) (ss : SequenceStatus) (address : Option Addressable) :
    SequenceStatus :=
  match address with
  | none =>
      markUnknown now { ss with address := { url := none } } addressableType "emptyAddress"
        "addressable is nil"
  | some a =>
      match a.url with
      | none =>
          markUnknown now { ss with address := { url := none } } addressableType "emptyAddress"
            "addressable is nil"
      | some u =>
          markTrue now { ss with address := { url := some u } } addressableType

/-- `MarkOIDCIdentityCreatedSucceeded` (line 200). -/
def SequenceStatus.markOIDCIdentityCreatedSucceeded (now : Nat) (ss : SequenceStatus) :
    SequenceStatus :=
  markTrue now ss oidcIdentityCreatedType

/-- `MarkOIDCIdentityCreatedSucceededWithReason` (line 205). -/
def SequenceStatus.markOIDCIdentityCreatedSucceededWithReason (now : Nat) (ss : SequenceStatus)
    (r m : String) : SequenceStatus :=
  markTrueWithReason now ss oidcIdentityCreatedType r m

/-- `MarkOIDCIdentityCreatedFailed` (line 210). -/
def SequenceStatus.markOIDCIdentityCreatedFailed (now : Nat) (ss : SequenceStatus) (r m : String) :
    SequenceStatus :=
  markFalse now ss oidcIdentityCreatedType r m

/-- `MarkOIDCIdentityCreatedUnknown` (line 215). -/
def SequenceStatus.markOIDCIdentityCreatedUnknown (now : Nat) (ss : SequenceStatus) (r m : String) :
    SequenceStatus :=
  markUnknown now ss oidcIdentityCreatedType r m

/-- The object reference recorded for a subscription (lines 97-102). -/
def subscriptionRef (s : Subscription) : ObjectReference :=
  { apiVersion := s.apiVersion, kind := s.kind, name := s.name, nspace := s.nspace }

/-- The object reference recorded for a channel (lines 146-151). -/
def channelRef (c : Channelable) : ObjectReference :=
  { apiVersion := c.apiVersion, kind := c.kind, name := c.name, nspace := c.nspace }

/-- Loop body of `PropagateSubscriptionStatuses` (lines 95-121): the stored entry for one
subscription — its `Ready` condition copied verbatim when present, a synthesized
`Unknown/"NoReady"` condition otherwise. -/
def subscriptionEntry (now : Nat) (s : Subscription) : SequenceSubscriptionStatus :=
  match getCond s.conditions readyType with
  | some rc => { subscription := subscriptionRef s, readyCondition := rc }
  | none =>
      { subscription := subscriptionRef s
        readyCondition :=
          { ctype := readyType, status := ConditionStatus.cunknown, reason := "NoReady"
            message := "Subscription does not have Ready condition", ltt := now } }

/-- Whether one subscription counts as ready in the `allReady` accumulator (lines 105-119):
it exposes a `Ready` condition and that condition `IsTrue()`. -/
def subscriptionReady (s : Subscription) : Bool :=
  match getCond s.conditions readyType with
  | some rc => rc.status == ConditionStatus.ctrue
  | none => false

/-- `PropagateSubscriptionStatuses` (lines 87-127): rebuild `SubscriptionStatuses` from the
input (one entry per subscription, in order), compute `allReady` (false on the empty list,
false as soon as one entry is missing or not `True`), then mark `SubscriptionsReady` `True`
or `Unknown/"SubscriptionsNotReady"`. -/
def SequenceStatus.propagateSubscriptionStatuses (now : Nat) (ss : SequenceStatus)
    (subscriptions : List Subscription) : SequenceStatus :=
  let allReady := subscriptions.length != 0 && subscriptions.all subscriptionReady
  let ss1 := { ss with subscriptionStatuses := subscriptions.map (subscriptionEntry now) }
  if allReady then
    markTrue now ss1 subscriptionsReadyType
  else
    ss1.markSubscriptionsNotReady now "SubscriptionsNotReady"
      "Subscriptions are not ready yet, or there are none"

/-- Loop body of `PropagateChannelStatuses` (lines 139-168), readiness entry part. -/
def channelEntry (now : Nat) (c : Channelable) : SequenceChannelStatus :=
  match getCond c.conditions readyType with
  | some rc => { channel := channelRef c, readyCondition := rc }
  | none =>
      { channel := channelRef c
        readyCondition :=
          { ctype := readyType, status := ConditionStatus.cunknown, reason := "NoReady"
            message := "Channel does not have Ready condition", ltt := now } }

/-- Whether one channel counts as ready in the `allReady` accumulator (lines 154-168). -/
def channelReady (c : Channelable) : Bool :=
  match getCond c.conditions readyType with
  | some rc => rc.status == ConditionStatus.ctrue
  | none => false

/-- `PropagateChannelStatuses` (lines 131-175): rebuild `ChannelStatuses` from the input;
on a non-empty input, derive `Address` from the first channel via `setAddress`; compute
`allReady` as for subscriptions; then mark `ChannelsReady` `True` or
`Unknown/"ChannelsNotReady"`. -/
def SequenceStatus.propagateChannelStatuses (now : Nat) (ss : SequenceStatus)
    (channels : List Channelable) : SequenceStatus :=
  let ss0 :=
    match channels with
    | [] => ss
    | c :: _ => ss.setAddress now c.address
  let allReady := channels.length != 0 && channels.all channelReady
  let ss1 := { ss0 with channelStatuses := channels.map (channelEntry now) }
  if allReady then
    markTrue now ss1 channelsReadyType
  else
    ss1.markChannelsNotReady now "ChannelsNotReady" "Channels are not ready yet, or there are none"

/-- The mutating operations of `sequence_lifecycle.go`, as one inductive type, so that
claims over "every operation of this file" quantify over a `SeqOp`. -/
inductive SeqOp where
  | initConds : SeqOp
  | propagateSubscriptions : List Subscription → SeqOp
  | propagateChannels : List Channelable → SeqOp
  | chansNotReady : String → String → SeqOp
  | subsNotReady : String → String → SeqOp
  | addrNotReady : String → String → SeqOp
  | oidcSucceeded : SeqOp
  | oidcSucceededWithReason : String → String → SeqOp
  | oidcFailed : String → String → SeqOp
  | oidcUnknown : String → String → SeqOp

/-- Apply one operation of the file to a status record. -/
def applyOp (now : Nat) (op : SeqOp) (ss : SequenceStatus) : SequenceStatus :=
  match op with
  | SeqOp.initConds => ss.initConditions now
  | SeqOp.propagateSubscriptions subs => ss.propagateSubscriptionStatuses now subs
  | SeqOp.propagateChannels chans => ss.propagateChannelStatuses now chans
  | SeqOp.chansNotReady r m => ss.markChannelsNotReady now r m
  | SeqOp.subsNotReady r m => ss.markSubscriptionsNotReady now r m
  | SeqOp.addrNotReady r m => ss.markAddressableNotReady now r m
  | SeqOp.oidcSucceeded => ss.markOIDCIdentityCreatedSucceeded now
  | SeqOp.oidcSucceededWithReason r m => ss.markOIDCIdentityCreatedSucceededWithReason now r m
  | SeqOp.oidcFailed r m => ss.markOIDCIdentityCreatedFailed now r m
  | SeqOp.oidcUnknown r m => ss.markOIDCIdentityCreatedUnknown now r m

/-- The empty status record, used by concrete witnesses. -/
def emptyStatus : SequenceStatus :=
  { conditions := [], subscriptionStatuses := [], channelStatuses := [], address := { url := none } }

/-- `c` is stored in `conds`: some condition of its type is present, and every condition
of its type equals `c`. -/
def Stored (conds : List Condition) (c : Condition) : Prop :=
  (∃ x ∈ conds, x.ctype = c.ctype) ∧ ∀ x ∈ conds, x.ctype = c.ctype → x = c


/-- The C1 invariant: the stored synthetic `Ready` condition agrees with the conjunction
of the four dependent conditions. -/
def ReadyAgrees (ss : SequenceStatus) : Prop :=
  ss.isReady = allDepsTrue ss.conditions


/-! ### Witness fixtures: concrete child snapshots -/

def readyTrueCond : Condition :=
  { ctype := "Ready", status := ConditionStatus.ctrue, reason := "", message := "", ltt := 0 }

def readyFalseCond : Condition :=
  { ctype := "Ready", status := ConditionStatus.cfalse, reason := "", message := "", ltt := 0 }

def sub1 : Subscription :=
  { apiVersion := "messaging.knative.dev/v1", kind := "Subscription", name := "step-1"
    nspace := "default", conditions := [readyTrueCond] }

def sub2 : Subscription :=
  { apiVersion := "messaging.knative.dev/v1", kind := "Subscription", name := "step-2"
    nspace := "default", conditions := [readyFalseCond] }

def subNoReady : Subscription :=
  { apiVersion := "messaging.knative.dev/v1", kind := "Subscription", name := "step-3"
    nspace := "default", conditions := [] }

def chan1 : Channelable :=
  { apiVersion := "messaging.knative.dev/v1", kind := "InMemoryChannel", name := "chan-1"
    nspace := "default", conditions := [readyTrueCond]
    address := some { url := some "http://chan-1.default.svc" } }

def chan2 : Channelable :=
  { apiVersion := "messaging.knative.dev/v1", kind := "InMemoryChannel", name := "chan-2"
    nspace := "default", conditions := [readyFalseCond]
    address := some { url := some "http://chan-2.default.svc" } }

def chanNoReady : Channelable :=
  { apiVersion := "messaging.knative.dev/v1", kind := "InMemoryChannel", name := "chan-3"
    nspace := "default", conditions := [], address := none }

def chanNoAddr : Channelable :=
  { apiVersion := "messaging.knative.dev/v1", kind := "InMemoryChannel", name := "chan-4"
    nspace := "default", conditions := [readyTrueCond], address := none }


/-- The synthetic `Ready` condition value `recomputeReady` stores for a given condition
list. -/
def readyCondOf (now : Nat) (conds : List Condition) : Condition :=
  { ctype := readyType
    status :=
      if allDepsTrue conds then ConditionStatus.ctrue
      else if anyDepFalse conds then ConditionStatus.cfalse
      else ConditionStatus.cunknown
    reason := "", message := "", ltt := now }


/-- The condition value the aggregate mark at the end of `PropagateSubscriptionStatuses`
stores for `SubscriptionsReady`. -/
def subsAggCondOf (now : Nat) (subs : List Subscription) : Condition :=
  if subs.length != 0 && subs.all subscriptionReady then
    { ctype := subscriptionsReadyType, status := ConditionStatus.ctrue, reason := ""
      message := "", ltt := now }
  else
    { ctype := subscriptionsReadyType, status := ConditionStatus.cunknown
      reason := "SubscriptionsNotReady"
      message := "Subscriptions are not ready yet, or there are none", ltt := now }

/-- The condition value the aggregate mark at the end of `PropagateChannelStatuses`
stores for `ChannelsReady`. -/
def chanAggCondOf (now : Nat) (chans : List Channelable) : Condition :=
  if chans.length != 0 && chans.all channelReady then
    { ctype := channelsReadyType, status := ConditionStatus.ctrue, reason := ""
      message := "", ltt := now }
  else
    { ctype := channelsReadyType, status := ConditionStatus.cunknown
      reason := "ChannelsNotReady"
      message := "Channels are not ready yet, or there are none", ltt := now }

/-- The condition value `setAddress` stores for `Addressable`. -/
def addrCondOf (now : Nat) (addr : Option Addressable) : Condition :=
  match addr with
  | none =>
      { ctype := addressableType, status := ConditionStatus.cunknown
        reason := "emptyAddress", message := "addressable is nil", ltt := now }
  | some a =>
      match a.url with
      | none =>
          { ctype := addressableType, status := ConditionStatus.cunknown
            reason := "emptyAddress", message := "addressable is nil", ltt := now }
      | some _ =>
          { ctype := addressableType, status := ConditionStatus.ctrue, reason := ""
            message := "", ltt := now }


/-! ### Lemmas about the condition-set primitive -/

theorem getCond_eq_none_of_any_eq_false {conds : List Condition} {t : String}
    (h : conds.any (fun c0 => c0.ctype == t) = false) : getCond conds t = none := by
  rw [getCond, List.find?_eq_none]
  intro x hx
  exact List.any_eq_false.mp h x hx

theorem getCond_nil (t : String) : getCond [] t = none := rfl

theorem getCond_cons_pos {hd : Condition} {t : String} (h : hd.ctype = t)
    (tl : List Condition) : getCond (hd :: tl) t = some hd := by
  simp only [getCond]
  exact List.find?_cons_of_pos _ (by simp [h])

theorem getCond_cons_neg {hd : Condition} {t : String} (h : hd.ctype ≠ t)
    (tl : List Condition) : getCond (hd :: tl) t = getCond tl t := by
  simp only [getCond]
  exact List.find?_cons_of_neg _ (by simp [h])

theorem getCond_map_repl (c : Condition) (conds : List Condition) :
    getCond (conds.map (fun c0 => if c0.ctype == c.ctype then c else c0)) c.ctype =
      if conds.any (fun c0 => c0.ctype == c.ctype) then some c else none := by
  induction conds with
  | nil => simp [getCond]
  | cons hd tl ih =>
      rw [List.map_cons]
      by_cases h : hd.ctype = c.ctype
      · rw [if_pos (show (hd.ctype == c.ctype) = true by simp [h]),
          getCond_cons_pos rfl, List.any_cons]
        simp [h]
      · rw [if_neg (show ¬ (hd.ctype == c.ctype) = true by simp [h]),
          getCond_cons_neg h, ih, List.any_cons]
        simp [h]

theorem getCond_map_repl_ne (c : Condition) {t : String} (h : t ≠ c.ctype)
    (conds : List Condition) :
    getCond (conds.map (fun c0 => if c0.ctype == c.ctype then c else c0)) t =
      getCond conds t := by
  induction conds with
  | nil => simp [getCond]
  | cons hd tl ih =>
      rw [List.map_cons]
      by_cases hh : hd.ctype = c.ctype
      · rw [if_pos (show (hd.ctype == c.ctype) = true by simp [hh]),
          getCond_cons_neg (Ne.symm h), getCond_cons_neg (hh ▸ Ne.symm h)]
        exact ih
      · rw [if_neg (show ¬ (hd.ctype == c.ctype) = true by simp [hh])]
        by_cases ht : hd.ctype = t
        · rw [getCond_cons_pos ht, getCond_cons_pos ht]
        · rw [getCond_cons_neg ht, getCond_cons_neg ht]
          exact ih

theorem getCond_append_of_none {conds : List Condition} {t : String} (c : Condition)
    (h : getCond conds t = none) :
    getCond (conds ++ [c]) t = if c.ctype == t then some c else none := by
  induction conds with
  | nil =>
      rw [List.nil_append]
      by_cases hc : c.ctype = t
      · rw [getCond_cons_pos hc]
        simp [hc]
      · rw [getCond_cons_neg hc, getCond_nil]
        simp [hc]
  | cons hd tl ih =>
      have hp : hd.ctype ≠ t := by
        intro hp
        rw [getCond_cons_pos hp] at h
        cases h
      rw [getCond_cons_neg hp] at h
      rw [List.cons_append, getCond_cons_neg hp]
      exact ih h

theorem getCond_append_ne {t : String} (c : Condition) (h : c.ctype ≠ t)
    (conds : List Condition) : getCond (conds ++ [c]) t = getCond conds t := by
  induction conds with
  | nil => rw [List.nil_append, getCond_cons_neg h]
  | cons hd tl ih =>
      by_cases hh : hd.ctype = t
      · rw [List.cons_append, getCond_cons_pos hh, getCond_cons_pos hh]
      · rw [List.cons_append, getCond_cons_neg hh, getCond_cons_neg hh]
        exact ih

theorem getCond_setCond_self (conds : List Condition) (c : Condition) :
    getCond (setCond conds c) c.ctype = some c := by
  rw [setCond]
  by_cases h : conds.any (fun c0 => c0.ctype == c.ctype) = true
  · rw [if_pos h, getCond_map_repl, if_pos h]
  · rw [if_neg h,
      getCond_append_of_none c (getCond_eq_none_of_any_eq_false (Bool.eq_false_iff.mpr h))]
    simp

theorem getCond_setCond_ne {t : String} (c : Condition) (h : t ≠ c.ctype)
    (conds : List Condition) : getCond (setCond conds c) t = getCond conds t := by
  rw [setCond]
  by_cases ha : conds.any (fun c0 => c0.ctype == c.ctype) = true
  · rw [if_pos ha, getCond_map_repl_ne c h]
  · rw [if_neg ha, getCond_append_ne c (Ne.symm h)]

theorem map_eq_self_of {α : Type} {l : List α} {f : α → α} (h : ∀ x ∈ l, f x = x) :
    l.map f = l := by
  induction l with
  | nil => rfl
  | cons hd tl ih =>
      rw [List.map_cons, h hd (List.mem_cons_self hd tl),
        ih fun x hx => h x (List.mem_cons_of_mem _ hx)]

theorem stored_setCond_self (conds : List Condition) (c : Condition) :
    Stored (setCond conds c) c := by
  rw [setCond]
  by_cases h : conds.any (fun c0 => c0.ctype == c.ctype) = true
  · rw [if_pos h]
    obtain ⟨x, hx, hxe⟩ := List.any_eq_true.mp h
    constructor
    · exact ⟨c, List.mem_map.mpr ⟨x, hx, by simp [hxe]⟩, rfl⟩
    · intro y hy hyt
      obtain ⟨x0, hx0, hx0y⟩ := List.mem_map.mp hy
      by_cases hq : x0.ctype = c.ctype
      · rw [← hx0y]
        simp [hq]
      · rw [← hx0y] at hyt
        simp only [if_neg (show ¬ (x0.ctype == c.ctype) = true by simp [hq])] at hyt
        exact absurd hyt hq
  · rw [if_neg h]
    constructor
    · exact ⟨c, List.mem_append.mpr (Or.inr (List.mem_singleton.mpr rfl)), rfl⟩
    · intro y hy hyt
      rcases List.mem_append.mp hy with hyl | hyr
      · exact absurd (by simp [hyt]) (List.any_eq_false.mp (Bool.eq_false_iff.mpr h) y hyl)
      · exact List.mem_singleton.mp hyr

theorem stored_setCond_ne {conds : List Condition} {c c' : Condition}
    (hne : c'.ctype ≠ c.ctype) (hs : Stored conds c) : Stored (setCond conds c') c := by
  obtain ⟨⟨x, hx, hxe⟩, hall⟩ := hs
  rw [setCond]
  by_cases h : conds.any (fun c0 => c0.ctype == c'.ctype) = true
  · rw [if_pos h]
    constructor
    · refine ⟨x, List.mem_map.mpr ⟨x, hx, ?_⟩, hxe⟩
      simp [show ¬ (x.ctype == c'.ctype) = true by simp [hxe ▸ Ne.symm hne]]
    · intro y hy hyt
      obtain ⟨x0, hx0, hx0y⟩ := List.mem_map.mp hy
      by_cases hq : x0.ctype = c'.ctype
      · rw [← hx0y] at hyt
        simp only [if_pos (show (x0.ctype == c'.ctype) = true by simp [hq])] at hyt
        exact absurd hyt hne
      · rw [← hx0y] at hyt ⊢
        simp only [if_neg (show ¬ (x0.ctype == c'.ctype) = true by simp [hq])] at hyt ⊢
        exact hall x0 hx0 hyt
  · rw [if_neg h]
    constructor
    · exact ⟨x, List.mem_append.mpr (Or.inl hx), hxe⟩
    · intro y hy hyt
      rcases List.mem_append.mp hy with hyl | hyr
      · exact hall y hyl hyt
      · rw [List.mem_singleton.mp hyr] at hyt
        exact absurd hyt hne

theorem setCond_of_stored {conds : List Condition} {c : Condition} (hs : Stored conds c) :
    setCond conds c = conds := by
  obtain ⟨⟨x, hx, hxe⟩, hall⟩ := hs
  rw [setCond, if_pos (List.any_eq_true.mpr ⟨x, hx, by simp [hxe]⟩)]
  refine map_eq_self_of fun y hy => ?_
  by_cases hq : y.ctype = c.ctype
  · rw [if_pos (show (y.ctype == c.ctype) = true by simp [hq]), hall y hy hq]
  · rw [if_neg (show ¬ (y.ctype == c.ctype) = true by simp [hq])]

/-! ### Lemmas about `condTrue`, `condFalse` and `recomputeReady` -/

theorem condTrue_setCond {t : String} (conds : List Condition) (c : Condition)
    (h : c.ctype = t) :
    condTrue (setCond conds c) t = (c.status == ConditionStatus.ctrue) := by
  simp only [condTrue]
  rw [← h, getCond_setCond_self]

theorem condTrue_setCond_ne {t : String} (c : Condition) (h : t ≠ c.ctype)
    (conds : List Condition) : condTrue (setCond conds c) t = condTrue conds t := by
  simp only [condTrue]
  rw [getCond_setCond_ne c h]

theorem condFalse_setCond {t : String} (conds : List Condition) (c : Condition)
    (h : c.ctype = t) :
    condFalse (setCond conds c) t = (c.status == ConditionStatus.cfalse) := by
  simp only [condFalse]
  rw [← h, getCond_setCond_self]

theorem condFalse_setCond_ne {t : String} (c : Condition) (h : t ≠ c.ctype)
    (conds : List Condition) : condFalse (setCond conds c) t = condFalse conds t := by
  simp only [condFalse]
  rw [getCond_setCond_ne c h]

theorem allDepsTrue_setCond_ready (conds : List Condition) {rc : Condition}
    (h : rc.ctype = readyType) : allDepsTrue (setCond conds rc) = allDepsTrue conds := by
  simp only [allDepsTrue, dependents, List.all_cons, List.all_nil]
  rw [condTrue_setCond_ne rc (by rw [h]; decide) conds,
    condTrue_setCond_ne rc (by rw [h]; decide) conds,
    condTrue_setCond_ne rc (by rw [h]; decide) conds,
    condTrue_setCond_ne rc (by rw [h]; decide) conds]

theorem anyDepFalse_setCond_ready (conds : List Condition) {rc : Condition}
    (h : rc.ctype = readyType) : anyDepFalse (setCond conds rc) = anyDepFalse conds := by
  simp only [anyDepFalse, dependents, List.any_cons, List.any_nil]
  rw [condFalse_setCond_ne rc (by rw [h]; decide) conds,
    condFalse_setCond_ne rc (by rw [h]; decide) conds,
    condFalse_setCond_ne rc (by rw [h]; decide) conds,
    condFalse_setCond_ne rc (by rw [h]; decide) conds]

theorem condTrue_recomputeReady (now : Nat) (conds : List Condition) :
    condTrue (recomputeReady now conds) readyType = allDepsTrue conds := by
  simp only [recomputeReady]
  rw [condTrue_setCond _ _ rfl]
  by_cases h : allDepsTrue conds = true
  · simp [h]
  · by_cases h2 : anyDepFalse conds = true
    · simp [h, h2]
    · simp [h, h2]

theorem getCond_recomputeReady_ne {t : String} (h : t ≠ readyType) (now : Nat)
    (conds : List Condition) : getCond (recomputeReady now conds) t = getCond conds t := by
  simp only [recomputeReady]
  exact getCond_setCond_ne _ h _

theorem allDepsTrue_recomputeReady (now : Nat) (conds : List Condition) :
    allDepsTrue (recomputeReady now conds) = allDepsTrue conds := by
  simp only [recomputeReady]
  exact allDepsTrue_setCond_ready _ rfl

theorem anyDepFalse_recomputeReady (now : Nat) (conds : List Condition) :
    anyDepFalse (recomputeReady now conds) = anyDepFalse conds := by
  simp only [recomputeReady]
  exact anyDepFalse_setCond_ready _ rfl

/-! ### Lemmas about the mark operations -/

theorem markCond_conditions (now : Nat) (ss : SequenceStatus) (c : Condition) :
    (markCond now ss c).conditions = recomputeReady now (setCond ss.conditions c) := rfl

theorem markCond_subscriptionStatuses (now : Nat) (ss : SequenceStatus) (c : Condition) :
    (markCond now ss c).subscriptionStatuses = ss.subscriptionStatuses := rfl

theorem markCond_channelStatuses (now : Nat) (ss : SequenceStatus) (c : Condition) :
    (markCond now ss c).channelStatuses = ss.channelStatuses := rfl

theorem markCond_address (now : Nat) (ss : SequenceStatus) (c : Condition) :
    (markCond now ss c).address = ss.address := rfl

theorem getCond_markCond_ne {t' : String} {c : Condition} (h1 : t' ≠ c.ctype)
    (h2 : t' ≠ readyType) (now : Nat) (ss : SequenceStatus) :
    getCond (markCond now ss c).conditions t' = getCond ss.conditions t' := by
  rw [markCond_conditions, getCond_recomputeReady_ne h2, getCond_setCond_ne c h1]

theorem getCond_markCond_self {c : Condition} (h : c.ctype ≠ readyType) (now : Nat)
    (ss : SequenceStatus) : getCond (markCond now ss c).conditions c.ctype = some c := by
  rw [markCond_conditions, getCond_recomputeReady_ne h, getCond_setCond_self]

theorem isReady_markCond (now : Nat) (ss : SequenceStatus) (c : Condition) :
    (markCond now ss c).isReady = allDepsTrue (setCond ss.conditions c) := by
  simp only [SequenceStatus.isReady, markCond_conditions]
  exact condTrue_recomputeReady now _

theorem allDepsTrue_setCond_dep_not_true (conds : List Condition) {c : Condition}
    (hdep : c.ctype ∈ dependents) (hst : c.status ≠ ConditionStatus.ctrue) :
    allDepsTrue (setCond conds c) = false := by
  simp only [allDepsTrue]
  refine List.all_eq_false.mpr ⟨c.ctype, hdep, ?_⟩
  rw [condTrue_setCond _ _ rfl]
  simp [hst]

theorem readyAgrees_markCond (now : Nat) (ss : SequenceStatus) (c : Condition) :
    ReadyAgrees (markCond now ss c) := by
  simp only [ReadyAgrees, markCond_conditions]
  rw [isReady_markCond, allDepsTrue_recomputeReady]

theorem condTrue_initCond (now : Nat) (conds : List Condition) (t t' : String) :
    condTrue (initCond now conds t) t' = condTrue conds t' := by
  simp only [initCond]
  cases hg : getCond conds t with
  | some c => rfl
  | none =>
      by_cases h : t' = t
      · subst h
        rw [condTrue_setCond _ _ rfl]
        simp [condTrue, hg]
      · exact condTrue_setCond_ne _ h _

theorem condTrue_initConditions (now : Nat) (ss : SequenceStatus) (t' : String) :
    condTrue (ss.initConditions now).conditions t' = condTrue ss.conditions t' := by
  simp only [SequenceStatus.initConditions, dependents, List.foldl_cons, List.foldl_nil]
  rw [condTrue_initCond, condTrue_initCond, condTrue_initCond, condTrue_initCond,
    condTrue_initCond]

theorem readyAgrees_initConditions {ss : SequenceStatus} (now : Nat) (h : ReadyAgrees ss) :
    ReadyAgrees (ss.initConditions now) := by
  simp only [ReadyAgrees, SequenceStatus.isReady, allDepsTrue, dependents, List.all_cons,
    List.all_nil] at h ⊢
  rw [condTrue_initConditions, condTrue_initConditions, condTrue_initConditions,
    condTrue_initConditions, condTrue_initConditions]
  exact h

theorem readyAgrees_propagateSubscriptionStatuses (now : Nat) (ss : SequenceStatus)
    (subs : List Subscription) : ReadyAgrees (ss.propagateSubscriptionStatuses now subs) := by
  simp only [SequenceStatus.propagateSubscriptionStatuses,
    SequenceStatus.markSubscriptionsNotReady, markTrue, markUnknown]
  split
  · exact readyAgrees_markCond _ _ _
  · exact readyAgrees_markCond _ _ _

theorem readyAgrees_propagateChannelStatuses (now : Nat) (ss : SequenceStatus)
    (chans : List Channelable) : ReadyAgrees (ss.propagateChannelStatuses now chans) := by
  simp only [SequenceStatus.propagateChannelStatuses, SequenceStatus.markChannelsNotReady,
    markTrue, markUnknown]
  split
  · exact readyAgrees_markCond _ _ _
  · exact readyAgrees_markCond _ _ _

/-- C1: `IsReady()` is true iff the four tracked sub-conditions `ChannelsReady`,
`SubscriptionsReady`, `Addressable` and `OIDCIdentityCreated` all have status `True`:
every operation of the file preserves this agreement between the stored synthetic `Ready`
condition and the conjunction of the four dependents (the `Ready` condition is only ever
recomputed from them, never set directly), and each operation that sets one of the four
to `Unknown` or `False` makes `IsReady()` return false. -/
theorem isReady_iff_subconditions_true :
    (∀ (now : Nat) (op : SeqOp) (ss : SequenceStatus),
        ReadyAgrees ss → ReadyAgrees (applyOp now op ss)) ∧
    (∀ (now : Nat) (ss : SequenceStatus) (r m : String),
        (ss.markChannelsNotReady now r m).isReady = false ∧
        (ss.markSubscriptionsNotReady now r m).isReady = false ∧
        (ss.markAddressableNotReady now r m).isReady = false ∧
        (ss.markOIDCIdentityCreatedFailed now r m).isReady = false ∧
        (ss.markOIDCIdentityCreatedUnknown now r m).isReady = false) := by
  constructor
  · intro now op ss h
    cases op with
    | initConds => exact readyAgrees_initConditions now h
    | propagateSubscriptions subs => exact readyAgrees_propagateSubscriptionStatuses now ss subs
    | propagateChannels chans => exact readyAgrees_propagateChannelStatuses now ss chans
    | chansNotReady r m => exact readyAgrees_markCond _ _ _
    | subsNotReady r m => exact readyAgrees_markCond _ _ _
    | addrNotReady r m => exact readyAgrees_markCond _ _ _
    | oidcSucceeded => exact readyAgrees_markCond _ _ _
    | oidcSucceededWithReason r m => exact readyAgrees_markCond _ _ _
    | oidcFailed r m => exact readyAgrees_markCond _ _ _
    | oidcUnknown r m => exact readyAgrees_markCond _ _ _
  · intro now ss r m
    refine ⟨?_, ?_, ?_, ?_, ?_⟩
    · simp only [SequenceStatus.markChannelsNotReady, markUnknown]
      rw [isReady_markCond]
      exact allDepsTrue_setCond_dep_not_true _
        (show channelsReadyType ∈ dependents by decide)
        (show ConditionStatus.cunknown ≠ ConditionStatus.ctrue by decide)
    · simp only [SequenceStatus.markSubscriptionsNotReady, markUnknown]
      rw [isReady_markCond]
      exact allDepsTrue_setCond_dep_not_true _
        (show subscriptionsReadyType ∈ dependents by decide)
        (show ConditionStatus.cunknown ≠ ConditionStatus.ctrue by decide)
    · simp only [SequenceStatus.markAddressableNotReady, markUnknown]
      rw [isReady_markCond]
      exact allDepsTrue_setCond_dep_not_true _
        (show addressableType ∈ dependents by decide)
        (show ConditionStatus.cunknown ≠ ConditionStatus.ctrue by decide)
    · simp only [SequenceStatus.markOIDCIdentityCreatedFailed, markFalse]
      rw [isReady_markCond]
      exact allDepsTrue_setCond_dep_not_true _
        (show oidcIdentityCreatedType ∈ dependents by decide)
        (show ConditionStatus.cfalse ≠ ConditionStatus.ctrue by decide)
    · simp only [SequenceStatus.markOIDCIdentityCreatedUnknown, markUnknown]
      rw [isReady_markCond]
      exact allDepsTrue_setCond_dep_not_true _
        (show oidcIdentityCreatedType ∈ dependents by decide)
        (show ConditionStatus.cunknown ≠ ConditionStatus.ctrue by decide)

/-- Witness for C1 at a concrete input: the empty status satisfies the agreement, and so
does the result of applying an operation to it. -/
theorem isReady_iff_subconditions_true_witness :
    ReadyAgrees emptyStatus ∧ ReadyAgrees (applyOp 0 SeqOp.initConds emptyStatus) :=
  ⟨rfl, isReady_iff_subconditions_true.1 0 SeqOp.initConds emptyStatus rfl⟩

/-! ### Structural lemmas about the propagation operations and `setAddress` -/

theorem propagateSubs_subscriptionStatuses (now : Nat) (ss : SequenceStatus)
    (subs : List Subscription) :
    (ss.propagateSubscriptionStatuses now subs).subscriptionStatuses =
      subs.map (subscriptionEntry now) := by
  simp only [SequenceStatus.propagateSubscriptionStatuses,
    SequenceStatus.markSubscriptionsNotReady, markTrue, markUnknown]
  split <;> rfl

theorem propagateSubs_channelStatuses (now : Nat) (ss : SequenceStatus)
    (subs : List Subscription) :
    (ss.propagateSubscriptionStatuses now subs).channelStatuses = ss.channelStatuses := by
  simp only [SequenceStatus.propagateSubscriptionStatuses,
    SequenceStatus.markSubscriptionsNotReady, markTrue, markUnknown]
  split <;> rfl

theorem propagateSubs_address (now : Nat) (ss : SequenceStatus) (subs : List Subscription) :
    (ss.propagateSubscriptionStatuses now subs).address = ss.address := by
  simp only [SequenceStatus.propagateSubscriptionStatuses,
    SequenceStatus.markSubscriptionsNotReady, markTrue, markUnknown]
  split <;> rfl

theorem propagateSubs_conditions (now : Nat) (ss : SequenceStatus) (subs : List Subscription) :
    (ss.propagateSubscriptionStatuses now subs).conditions =
      (if subs.length != 0 && subs.all subscriptionReady then
        markTrue now { ss with subscriptionStatuses := subs.map (subscriptionEntry now) }
          subscriptionsReadyType
      else
        markUnknown now { ss with subscriptionStatuses := subs.map (subscriptionEntry now) }
          subscriptionsReadyType "SubscriptionsNotReady"
          "Subscriptions are not ready yet, or there are none").conditions := rfl

theorem getCond_propagateSubs_allReady {subs : List Subscription}
    (h : (subs.length != 0 && subs.all subscriptionReady) = true) (now : Nat)
    (ss : SequenceStatus) :
    getCond (ss.propagateSubscriptionStatuses now subs).conditions subscriptionsReadyType =
      some { ctype := subscriptionsReadyType, status := ConditionStatus.ctrue, reason := ""
             message := "", ltt := now } := by
  rw [propagateSubs_conditions, if_pos h]
  simp only [markTrue]
  exact getCond_markCond_self (show subscriptionsReadyType ≠ readyType by decide) now _

theorem getCond_propagateSubs_notAllReady {subs : List Subscription}
    (h : (subs.length != 0 && subs.all subscriptionReady) = false) (now : Nat)
    (ss : SequenceStatus) :
    getCond (ss.propagateSubscriptionStatuses now subs).conditions subscriptionsReadyType =
      some { ctype := subscriptionsReadyType, status := ConditionStatus.cunknown
             reason := "SubscriptionsNotReady"
             message := "Subscriptions are not ready yet, or there are none", ltt := now } := by
  rw [propagateSubs_conditions, if_neg (by rw [h]; exact Bool.false_ne_true)]
  simp only [markUnknown]
  exact getCond_markCond_self (show subscriptionsReadyType ≠ readyType by decide) now _

theorem getCond_propagateSubs_ne {t' : String} (h1 : t' ≠ subscriptionsReadyType)
    (h2 : t' ≠ readyType) (now : Nat) (ss : SequenceStatus) (subs : List Subscription) :
    getCond (ss.propagateSubscriptionStatuses now subs).conditions t' =
      getCond ss.conditions t' := by
  rw [propagateSubs_conditions]
  split
  · simp only [markTrue]
    exact getCond_markCond_ne h1 h2 now _
  · simp only [markUnknown]
    exact getCond_markCond_ne h1 h2 now _

theorem setAddress_none (now : Nat) (ss : SequenceStatus) :
    ss.setAddress now none =
      markUnknown now { ss with address := { url := none } } addressableType "emptyAddress"
        "addressable is nil" := rfl

theorem setAddress_some_noUrl (now : Nat) (ss : SequenceStatus) {a : Addressable}
    (h : a.url = none) :
    ss.setAddress now (some a) =
      markUnknown now { ss with address := { url := none } } addressableType "emptyAddress"
        "addressable is nil" := by
  cases a with
  | mk u =>
      simp only at h
      subst h
      rfl

theorem setAddress_some_url (now : Nat) (ss : SequenceStatus) {a : Addressable} {u : String}
    (h : a.url = some u) :
    ss.setAddress now (some a) =
      markTrue now { ss with address := { url := some u } } addressableType := by
  cases a with
  | mk u0 =>
      simp only at h
      subst h
      rfl

theorem setAddress_subscriptionStatuses (now : Nat) (ss : SequenceStatus)
    (addr : Option Addressable) :
    (ss.setAddress now addr).subscriptionStatuses = ss.subscriptionStatuses := by
  cases addr with
  | none => rfl
  | some a =>
      cases ha : a.url with
      | none => rw [setAddress_some_noUrl now ss ha]; rfl
      | some u => rw [setAddress_some_url now ss ha]; rfl

theorem setAddress_channelStatuses (now : Nat) (ss : SequenceStatus)
    (addr : Option Addressable) :
    (ss.setAddress now addr).channelStatuses = ss.channelStatuses := by
  cases addr with
  | none => rfl
  | some a =>
      cases ha : a.url with
      | none => rw [setAddress_some_noUrl now ss ha]; rfl
      | some u => rw [setAddress_some_url now ss ha]; rfl

theorem getCond_setAddress_ne {t' : String} (h1 : t' ≠ addressableType) (h2 : t' ≠ readyType)
    (now : Nat) (ss : SequenceStatus) (addr : Option Addressable) :
    getCond (ss.setAddress now addr).conditions t' = getCond ss.conditions t' := by
  cases addr with
  | none =>
      rw [setAddress_none]
      simp only [markUnknown]
      exact getCond_markCond_ne h1 h2 now _
  | some a =>
      cases ha : a.url with
      | none =>
          rw [setAddress_some_noUrl now ss ha]
          simp only [markUnknown]
          exact getCond_markCond_ne h1 h2 now _
      | some u =>
          rw [setAddress_some_url now ss ha]
          simp only [markTrue]
          exact getCond_markCond_ne h1 h2 now _

theorem propagateChans_channelStatuses (now : Nat) (ss : SequenceStatus)
    (chans : List Channelable) :
    (ss.propagateChannelStatuses now chans).channelStatuses =
      chans.map (channelEntry now) := by
  simp only [SequenceStatus.propagateChannelStatuses, SequenceStatus.markChannelsNotReady,
    markTrue, markUnknown]
  split <;> rfl

theorem propagateChans_subscriptionStatuses (now : Nat) (ss : SequenceStatus)
    (chans : List Channelable) :
    (ss.propagateChannelStatuses now chans).subscriptionStatuses =
      ss.subscriptionStatuses := by
  cases chans with
  | nil =>
      simp only [SequenceStatus.propagateChannelStatuses, SequenceStatus.markChannelsNotReady,
        markTrue, markUnknown]
      split <;> rfl
  | cons c rest =>
      simp only [SequenceStatus.propagateChannelStatuses, SequenceStatus.markChannelsNotReady,
        markTrue, markUnknown]
      split
      · exact (markCond_subscriptionStatuses _ _ _).trans
          (setAddress_subscriptionStatuses _ _ _)
      · exact (markCond_subscriptionStatuses _ _ _).trans
          (setAddress_subscriptionStatuses _ _ _)

theorem propagateChans_address_nil (now : Nat) (ss : SequenceStatus) :
    (ss.propagateChannelStatuses now []).address = ss.address := rfl

theorem propagateChans_address_cons (now : Nat) (ss : SequenceStatus) (c : Channelable)
    (rest : List Channelable) :
    (ss.propagateChannelStatuses now (c :: rest)).address =
      (ss.setAddress now c.address).address := by
  simp only [SequenceStatus.propagateChannelStatuses, SequenceStatus.markChannelsNotReady,
    markTrue, markUnknown]
  split <;> rfl

theorem propagateChans_conditions (now : Nat) (ss : SequenceStatus)
    (chans : List Channelable) :
    (ss.propagateChannelStatuses now chans).conditions =
      (if chans.length != 0 && chans.all channelReady then
        markTrue now
          { (match chans with
             | [] => ss
             | c :: _ => ss.setAddress now c.address) with
            channelStatuses := chans.map (channelEntry now) } channelsReadyType
      else
        markUnknown now
          { (match chans with
             | [] => ss
             | c :: _ => ss.setAddress now c.address) with
            channelStatuses := chans.map (channelEntry now) } channelsReadyType
          "ChannelsNotReady" "Channels are not ready yet, or there are none").conditions := rfl

theorem getCond_propagateChans_allReady {chans : List Channelable}
    (h : (chans.length != 0 && chans.all channelReady) = true) (now : Nat)
    (ss : SequenceStatus) :
    getCond (ss.propagateChannelStatuses now chans).conditions channelsReadyType =
      some { ctype := channelsReadyType, status := ConditionStatus.ctrue, reason := ""
             message := "", ltt := now } := by
  rw [propagateChans_conditions, if_pos h]
  simp only [markTrue]
  exact getCond_markCond_self (show channelsReadyType ≠ readyType by decide) now _

theorem getCond_propagateChans_notAllReady {chans : List Channelable}
    (h : (chans.length != 0 && chans.all channelReady) = false) (now : Nat)
    (ss : SequenceStatus) :
    getCond (ss.propagateChannelStatuses now chans).conditions channelsReadyType =
      some { ctype := channelsReadyType, status := ConditionStatus.cunknown
             reason := "ChannelsNotReady"
             message := "Channels are not ready yet, or there are none", ltt := now } := by
  rw [propagateChans_conditions, if_neg (by rw [h]; exact Bool.false_ne_true)]
  simp only [markUnknown]
  exact getCond_markCond_self (show channelsReadyType ≠ readyType by decide) now _

theorem getCond_propagateChans_ne {t' : String} (h1 : t' ≠ channelsReadyType)
    (h2 : t' ≠ readyType) (h3 : t' ≠ addressableType) (now : Nat) (ss : SequenceStatus)
    (chans : List Channelable) :
    getCond (ss.propagateChannelStatuses now chans).conditions t' =
      getCond ss.conditions t' := by
  rw [propagateChans_conditions]
  cases chans with
  | nil =>
      split
      · simp only [markTrue]
        exact getCond_markCond_ne h1 h2 now _
      · simp only [markUnknown]
        exact getCond_markCond_ne h1 h2 now _
  | cons c rest =>
      split
      · simp only [markTrue]
        exact (getCond_markCond_ne h1 h2 now _).trans (getCond_setAddress_ne h3 h2 now ss _)
      · simp only [markUnknown]
        exact (getCond_markCond_ne h1 h2 now _).trans (getCond_setAddress_ne h3 h2 now ss _)

theorem getCond_propagateChans_nil_ne {t' : String} (h1 : t' ≠ channelsReadyType)
    (h2 : t' ≠ readyType) (now : Nat) (ss : SequenceStatus) :
    getCond (ss.propagateChannelStatuses now []).conditions t' = getCond ss.conditions t' := by
  rw [propagateChans_conditions]
  split
  · simp only [markTrue]
    exact getCond_markCond_ne h1 h2 now _
  · simp only [markUnknown]
    exact getCond_markCond_ne h1 h2 now _

theorem getCond_propagateChans_addressable_cons (now : Nat) (ss : SequenceStatus)
    (c : Channelable) (rest : List Channelable) :
    getCond (ss.propagateChannelStatuses now (c :: rest)).conditions addressableType =
      getCond (ss.setAddress now c.address).conditions addressableType := by
  rw [propagateChans_conditions]
  split
  · simp only [markTrue]
    exact getCond_markCond_ne (show addressableType ≠ channelsReadyType by decide)
      (show addressableType ≠ readyType by decide) now _
  · simp only [markUnknown]
    exact getCond_markCond_ne (show addressableType ≠ channelsReadyType by decide)
      (show addressableType ≠ readyType by decide) now _

theorem length_bne_zero {α : Type} {l : List α} (h : l ≠ []) : (l.length != 0) = true := by
  cases l with
  | nil => exact absurd rfl h
  | cons a t => simp

theorem subscriptionEntry_subscription (now : Nat) (s : Subscription) :
    (subscriptionEntry now s).subscription = subscriptionRef s := by
  simp only [subscriptionEntry]
  split <;> rfl

theorem channelEntry_channel (now : Nat) (c : Channelable) :
    (channelEntry now c).channel = channelRef c := by
  simp only [channelEntry]
  split <;> rfl

theorem all_subscriptionReady_of {subs : List Subscription}
    (h : ∀ s ∈ subs, ∃ c, getCond s.conditions readyType = some c ∧
        c.status = ConditionStatus.ctrue) :
    subs.all subscriptionReady = true :=
  List.all_eq_true.mpr fun s hs => by
    obtain ⟨c, hc, ht⟩ := h s hs
    simp [subscriptionReady, hc, ht]

theorem all_channelReady_of {chans : List Channelable}
    (h : ∀ ch ∈ chans, ∃ c, getCond ch.conditions readyType = some c ∧
        c.status = ConditionStatus.ctrue) :
    chans.all channelReady = true :=
  List.all_eq_true.mpr fun ch hch => by
    obtain ⟨c, hc, ht⟩ := h ch hch
    simp [channelReady, hc, ht]

theorem propagateSubs_refs (now : Nat) (ss : SequenceStatus) (subs : List Subscription) :
    (ss.propagateSubscriptionStatuses now subs).subscriptionStatuses.map
      (fun e => e.subscription) = subs.map subscriptionRef := by
  rw [propagateSubs_subscriptionStatuses, List.map_map]
  exact List.map_congr_left fun s _ => subscriptionEntry_subscription now s

theorem propagateChans_refs (now : Nat) (ss : SequenceStatus) (chans : List Channelable) :
    (ss.propagateChannelStatuses now chans).channelStatuses.map (fun e => e.channel) =
      chans.map channelRef := by
  rw [propagateChans_channelStatuses, List.map_map]
  exact List.map_congr_left fun c _ => channelEntry_channel now c

theorem get?_append_cons {α : Type} (l1 : List α) (a : α) (l2 : List α) :
    (l1 ++ a :: l2).get? l1.length = some a := by
  induction l1 with
  | nil => rfl
  | cons hd tl ih => simpa using ih

/-! ### Claim theorems C2, C3, C4 -/

/-- C2: for a non-empty input list in which every child snapshot carries a `Ready`
condition with status `True`, `PropagateSubscriptionStatuses` marks `SubscriptionsReady`
`True` and `PropagateChannelStatuses` marks `ChannelsReady` `True`, and the rebuilt
statuses slice has exactly one entry per input, with object references in input order. -/
theorem propagate_all_ready_marks_true (now : Nat) (ss : SequenceStatus)
    (subs : List Subscription) (chans : List Channelable) (hs0 : subs ≠ [])
    (hs1 : ∀ s ∈ subs, ∃ c, getCond s.conditions readyType = some c ∧
        c.status = ConditionStatus.ctrue)
    (hc0 : chans ≠ [])
    (hc1 : ∀ ch ∈ chans, ∃ c, getCond ch.conditions readyType = some c ∧
        c.status = ConditionStatus.ctrue) :
    (getCond (ss.propagateSubscriptionStatuses now subs).conditions subscriptionsReadyType =
        some { ctype := subscriptionsReadyType, status := ConditionStatus.ctrue, reason := ""
               message := "", ltt := now } ∧
      (ss.propagateSubscriptionStatuses now subs).subscriptionStatuses.length = subs.length ∧
      (ss.propagateSubscriptionStatuses now subs).subscriptionStatuses.map
        (fun e => e.subscription) = subs.map subscriptionRef) ∧
    (getCond (ss.propagateChannelStatuses now chans).conditions channelsReadyType =
        some { ctype := channelsReadyType, status := ConditionStatus.ctrue, reason := ""
               message := "", ltt := now } ∧
      (ss.propagateChannelStatuses now chans).channelStatuses.length = chans.length ∧
      (ss.propagateChannelStatuses now chans).channelStatuses.map (fun e => e.channel) =
        chans.map channelRef) := by
  have hb1 : (subs.length != 0 && subs.all subscriptionReady) = true := by
    rw [length_bne_zero hs0, all_subscriptionReady_of hs1]
    rfl
  have hb2 : (chans.length != 0 && chans.all channelReady) = true := by
    rw [length_bne_zero hc0, all_channelReady_of hc1]
    rfl
  refine ⟨⟨getCond_propagateSubs_allReady hb1 now ss, ?_, propagateSubs_refs now ss subs⟩,
    ⟨getCond_propagateChans_allReady hb2 now ss, ?_, propagateChans_refs now ss chans⟩⟩
  · rw [propagateSubs_subscriptionStatuses]
    exact List.length_map _ _
  · rw [propagateChans_channelStatuses]
    exact List.length_map _ _

/-- Witness for C2 at concrete all-ready inputs of length one. -/
theorem propagate_all_ready_marks_true_witness :
    getCond (emptyStatus.propagateSubscriptionStatuses 0 [sub1]).conditions
        subscriptionsReadyType =
      some { ctype := subscriptionsReadyType, status := ConditionStatus.ctrue, reason := ""
             message := "", ltt := 0 } :=
  (propagate_all_ready_marks_true 0 emptyStatus [sub1] [chan1] (by decide)
    (fun s hs => by
      rw [List.mem_singleton.mp hs]
      exact ⟨readyTrueCond, by decide, rfl⟩)
    (by decide)
    (fun ch hch => by
      rw [List.mem_singleton.mp hch]
      exact ⟨readyTrueCond, by decide, rfl⟩)).1.1

/-- C3: when exactly one snapshot in a list of at least two has `Ready=False` and all
others have `Ready=True`, the aggregate condition is set to `Unknown` with reason
`"SubscriptionsNotReady"` / `"ChannelsNotReady"` — not `True`, not `False`. -/
theorem one_false_poisons_all (now : Nat) (ss : SequenceStatus)
    (l1 l2 : List Subscription) (b : Subscription) (k1 k2 : List Channelable)
    (bc : Channelable)
    (_hn : 2 ≤ (l1 ++ b :: l2).length)
    (hb : ∃ c, getCond b.conditions readyType = some c ∧ c.status = ConditionStatus.cfalse)
    (_hrest : ∀ s ∈ l1 ++ l2, ∃ c, getCond s.conditions readyType = some c ∧
        c.status = ConditionStatus.ctrue)
    (_hnC : 2 ≤ (k1 ++ bc :: k2).length)
    (hbC : ∃ c, getCond bc.conditions readyType = some c ∧ c.status = ConditionStatus.cfalse)
    (_hrestC : ∀ ch ∈ k1 ++ k2, ∃ c, getCond ch.conditions readyType = some c ∧
        c.status = ConditionStatus.ctrue) :
    getCond (ss.propagateSubscriptionStatuses now (l1 ++ b :: l2)).conditions
        subscriptionsReadyType =
      some { ctype := subscriptionsReadyType, status := ConditionStatus.cunknown
             reason := "SubscriptionsNotReady"
             message := "Subscriptions are not ready yet, or there are none", ltt := now } ∧
    getCond (ss.propagateChannelStatuses now (k1 ++ bc :: k2)).conditions
        channelsReadyType =
      some { ctype := channelsReadyType, status := ConditionStatus.cunknown
             reason := "ChannelsNotReady"
             message := "Channels are not ready yet, or there are none", ltt := now } := by
  have hready : subscriptionReady b = false := by
    obtain ⟨c, hc, hst⟩ := hb
    simp [subscriptionReady, hc, hst]
  have hreadyC : channelReady bc = false := by
    obtain ⟨c, hc, hst⟩ := hbC
    simp [channelReady, hc, hst]
  have hall : ((l1 ++ b :: l2).length != 0 && (l1 ++ b :: l2).all subscriptionReady) =
      false := by
    rw [show (l1 ++ b :: l2).all subscriptionReady = false by
      simp [List.all_append, List.all_cons, hready]]
    exact Bool.and_false _
  have hallC : ((k1 ++ bc :: k2).length != 0 && (k1 ++ bc :: k2).all channelReady) =
      false := by
    rw [show (k1 ++ bc :: k2).all channelReady = false by
      simp [List.all_append, List.all_cons, hreadyC]]
    exact Bool.and_false _
  exact ⟨getCond_propagateSubs_notAllReady hall now ss,
    getCond_propagateChans_notAllReady hallC now ss⟩

/-- Witness for C3 at concrete two-element inputs whose second element is `Ready=False`. -/
theorem one_false_poisons_all_witness :
    getCond (emptyStatus.propagateSubscriptionStatuses 0 [sub1, sub2]).conditions
        subscriptionsReadyType =
      some { ctype := subscriptionsReadyType, status := ConditionStatus.cunknown
             reason := "SubscriptionsNotReady"
             message := "Subscriptions are not ready yet, or there are none", ltt := 0 } :=
  (one_false_poisons_all 0 emptyStatus [sub1] [] sub2 [chan1] [] chan2 (by decide)
    ⟨readyFalseCond, by decide, rfl⟩
    (fun s hs => by
      have hs1 : s = sub1 := by simpa using hs
      rw [hs1]
      exact ⟨readyTrueCond, by decide, rfl⟩)
    (by decide)
    ⟨readyFalseCond, by decide, rfl⟩
    (fun ch hch => by
      have hch1 : ch = chan1 := by simpa using hch
      rw [hch1]
      exact ⟨readyTrueCond, by decide, rfl⟩)).1

/-- C4: propagation with an empty input list marks the respective aggregate condition
`Unknown` (never `True`), and the channel call on an empty list leaves `Address`
unchanged. -/
theorem propagate_empty_not_ready (now : Nat) (ss : SequenceStatus) :
    getCond (ss.propagateSubscriptionStatuses now []).conditions subscriptionsReadyType =
      some { ctype := subscriptionsReadyType, status := ConditionStatus.cunknown
             reason := "SubscriptionsNotReady"
             message := "Subscriptions are not ready yet, or there are none", ltt := now } ∧
    getCond (ss.propagateChannelStatuses now []).conditions channelsReadyType =
      some { ctype := channelsReadyType, status := ConditionStatus.cunknown
             reason := "ChannelsNotReady"
             message := "Channels are not ready yet, or there are none", ltt := now } ∧
    (ss.propagateChannelStatuses now []).address = ss.address :=
  ⟨getCond_propagateSubs_notAllReady (by rfl) now ss,
    getCond_propagateChans_notAllReady (by rfl) now ss, rfl⟩

/-- C5: a child snapshot exposing no `Ready` condition gets a synthesized stored ready
condition `{Ready, Unknown, "NoReady", "<kind> does not have Ready condition"}`, and the
aggregate condition is marked `Unknown` (not `True`). -/
theorem missing_ready_synthesized (now : Nat) (ss : SequenceStatus)
    (pre post : List Subscription) (s : Subscription)
    (h : getCond s.conditions readyType = none)
    (preC postC : List Channelable) (c : Channelable)
    (hC : getCond c.conditions readyType = none) :
    ((ss.propagateSubscriptionStatuses now (pre ++ s :: post)).subscriptionStatuses.get?
        pre.length =
      some { subscription := subscriptionRef s
             readyCondition :=
               { ctype := readyType, status := ConditionStatus.cunknown, reason := "NoReady"
                 message := "Subscription does not have Ready condition", ltt := now } } ∧
      getCond (ss.propagateSubscriptionStatuses now (pre ++ s :: post)).conditions
          subscriptionsReadyType =
        some { ctype := subscriptionsReadyType, status := ConditionStatus.cunknown
               reason := "SubscriptionsNotReady"
               message := "Subscriptions are not ready yet, or there are none"
               ltt := now }) ∧
    ((ss.propagateChannelStatuses now (preC ++ c :: postC)).channelStatuses.get?
        preC.length =
      some { channel := channelRef c
             readyCondition :=
               { ctype := readyType, status := ConditionStatus.cunknown, reason := "NoReady"
                 message := "Channel does not have Ready condition", ltt := now } } ∧
      getCond (ss.propagateChannelStatuses now (preC ++ c :: postC)).conditions
          channelsReadyType =
        some { ctype := channelsReadyType, status := ConditionStatus.cunknown
               reason := "ChannelsNotReady"
               message := "Channels are not ready yet, or there are none", ltt := now }) := by
  refine ⟨⟨?_, ?_⟩, ⟨?_, ?_⟩⟩
  · rw [propagateSubs_subscriptionStatuses, List.map_append, List.map_cons]
    have hg := get?_append_cons (pre.map (subscriptionEntry now)) (subscriptionEntry now s)
      (post.map (subscriptionEntry now))
    rw [List.length_map] at hg
    rw [hg]
    simp [subscriptionEntry, h]
  · have hready : subscriptionReady s = false := by simp [subscriptionReady, h]
    have hall : ((pre ++ s :: post).length != 0 &&
        (pre ++ s :: post).all subscriptionReady) = false := by
      rw [show (pre ++ s :: post).all subscriptionReady = false by
        simp [List.all_append, List.all_cons, hready]]
      exact Bool.and_false _
    exact getCond_propagateSubs_notAllReady hall now ss
  · rw [propagateChans_channelStatuses, List.map_append, List.map_cons]
    have hg := get?_append_cons (preC.map (channelEntry now)) (channelEntry now c)
      (postC.map (channelEntry now))
    rw [List.length_map] at hg
    rw [hg]
    simp [channelEntry, hC]
  · have hready : channelReady c = false := by simp [channelReady, hC]
    have hall : ((preC ++ c :: postC).length != 0 &&
        (preC ++ c :: postC).all channelReady) = false := by
      rw [show (preC ++ c :: postC).all channelReady = false by
        simp [List.all_append, List.all_cons, hready]]
      exact Bool.and_false _
    exact getCond_propagateChans_notAllReady hall now ss

/-- Witness for C5 at a concrete one-element input whose snapshot has no conditions. -/
theorem missing_ready_synthesized_witness :
    (emptyStatus.propagateSubscriptionStatuses 0 [subNoReady]).subscriptionStatuses.get? 0 =
      some { subscription := subscriptionRef subNoReady
             readyCondition :=
               { ctype := readyType, status := ConditionStatus.cunknown, reason := "NoReady"
                 message := "Subscription does not have Ready condition", ltt := 0 } } :=
  (missing_ready_synthesized 0 emptyStatus [] [] subNoReady rfl [] [] chanNoReady rfl).1.1

/-- C6: for a non-empty channel list, `Address` and the `Addressable` condition are derived
from the first channel only: a nil address or nil URL yields the empty `Address` and
`Addressable=Unknown` with reason `"emptyAddress"`; a URL yields that URL as `Address` and
`Addressable=True` — whatever the remaining channels carry. -/
theorem address_from_first_channel (now : Nat) (ss : SequenceStatus) (c : Channelable)
    (rest : List Channelable) :
    (c.address = none →
        (ss.propagateChannelStatuses now (c :: rest)).address = { url := none } ∧
        getCond (ss.propagateChannelStatuses now (c :: rest)).conditions addressableType =
          some { ctype := addressableType, status := ConditionStatus.cunknown
                 reason := "emptyAddress", message := "addressable is nil", ltt := now }) ∧
    (∀ a, c.address = some a → a.url = none →
        (ss.propagateChannelStatuses now (c :: rest)).address = { url := none } ∧
        getCond (ss.propagateChannelStatuses now (c :: rest)).conditions addressableType =
          some { ctype := addressableType, status := ConditionStatus.cunknown
                 reason := "emptyAddress", message := "addressable is nil", ltt := now }) ∧
    (∀ a u, c.address = some a → a.url = some u →
        (ss.propagateChannelStatuses now (c :: rest)).address = { url := some u } ∧
        getCond (ss.propagateChannelStatuses now (c :: rest)).conditions addressableType =
          some { ctype := addressableType, status := ConditionStatus.ctrue, reason := ""
                 message := "", ltt := now }) := by
  refine ⟨fun h => ⟨?_, ?_⟩, fun a ha hu => ⟨?_, ?_⟩, fun a u ha hu => ⟨?_, ?_⟩⟩
  · rw [propagateChans_address_cons, h, setAddress_none]
    rfl
  · rw [getCond_propagateChans_addressable_cons, h, setAddress_none]
    simp only [markUnknown]
    exact getCond_markCond_self (show addressableType ≠ readyType by decide) now _
  · rw [propagateChans_address_cons, ha, setAddress_some_noUrl now ss hu]
    rfl
  · rw [getCond_propagateChans_addressable_cons, ha, setAddress_some_noUrl now ss hu]
    simp only [markUnknown]
    exact getCond_markCond_self (show addressableType ≠ readyType by decide) now _
  · rw [propagateChans_address_cons, ha, setAddress_some_url now ss hu]
    rfl
  · rw [getCond_propagateChans_addressable_cons, ha, setAddress_some_url now ss hu]
    simp only [markTrue]
    exact getCond_markCond_self (show addressableType ≠ readyType by decide) now _

/-- Witness for C6: three channels where only the first carries a URL; the derived
`Address` is the first channel's URL. -/
theorem address_from_first_channel_witness :
    (emptyStatus.propagateChannelStatuses 0 [chan1, chanNoReady, chanNoAddr]).address =
      { url := some "http://chan-1.default.svc" } :=
  ((address_from_first_channel 0 emptyStatus chan1 [chanNoReady, chanNoAddr]).2.2
    { url := some "http://chan-1.default.svc" } "http://chan-1.default.svc" rfl rfl).1

/-- C7: after any propagation call, the statuses slice has exactly the input's length and
order, and is independent of the prior contents of the status record (no entry survives
from an earlier call). -/
theorem statuses_rebuilt_from_scratch (now : Nat) (subs : List Subscription)
    (chans : List Channelable) (ss ssA ssB : SequenceStatus) :
    ((ss.propagateSubscriptionStatuses now subs).subscriptionStatuses.length = subs.length ∧
      (ss.propagateSubscriptionStatuses now subs).subscriptionStatuses.map
        (fun e => e.subscription) = subs.map subscriptionRef ∧
      (ssA.propagateSubscriptionStatuses now subs).subscriptionStatuses =
        (ssB.propagateSubscriptionStatuses now subs).subscriptionStatuses) ∧
    ((ss.propagateChannelStatuses now chans).channelStatuses.length = chans.length ∧
      (ss.propagateChannelStatuses now chans).channelStatuses.map (fun e => e.channel) =
        chans.map channelRef ∧
      (ssA.propagateChannelStatuses now chans).channelStatuses =
        (ssB.propagateChannelStatuses now chans).channelStatuses) := by
  refine ⟨⟨?_, propagateSubs_refs now ss subs, ?_⟩,
    ⟨?_, propagateChans_refs now ss chans, ?_⟩⟩
  · rw [propagateSubs_subscriptionStatuses]
    exact List.length_map _ _
  · rw [propagateSubs_subscriptionStatuses, propagateSubs_subscriptionStatuses]
  · rw [propagateChans_channelStatuses]
    exact List.length_map _ _
  · rw [propagateChans_channelStatuses, propagateChans_channelStatuses]

/-- C10: `PropagateSubscriptionStatuses` leaves `ChannelStatuses`, `Address`, and the
`ChannelsReady`, `Addressable` and `OIDCIdentityCreated` conditions unchanged;
`PropagateChannelStatuses` leaves `SubscriptionStatuses`, the `SubscriptionsReady`
condition and the `OIDCIdentityCreated` condition unchanged. -/
theorem propagate_frame_effects (now : Nat) (ss : SequenceStatus) (subs : List Subscription)
    (chans : List Channelable) :
    ((ss.propagateSubscriptionStatuses now subs).channelStatuses = ss.channelStatuses ∧
      (ss.propagateSubscriptionStatuses now subs).address = ss.address ∧
      getCond (ss.propagateSubscriptionStatuses now subs).conditions channelsReadyType =
        getCond ss.conditions channelsReadyType ∧
      getCond (ss.propagateSubscriptionStatuses now subs).conditions addressableType =
        getCond ss.conditions addressableType ∧
      getCond (ss.propagateSubscriptionStatuses now subs).conditions
          oidcIdentityCreatedType =
        getCond ss.conditions oidcIdentityCreatedType) ∧
    ((ss.propagateChannelStatuses now chans).subscriptionStatuses =
        ss.subscriptionStatuses ∧
      getCond (ss.propagateChannelStatuses now chans).conditions subscriptionsReadyType =
        getCond ss.conditions subscriptionsReadyType ∧
      getCond (ss.propagateChannelStatuses now chans).conditions oidcIdentityCreatedType =
        getCond ss.conditions oidcIdentityCreatedType) :=
  ⟨⟨propagateSubs_channelStatuses now ss subs, propagateSubs_address now ss subs,
    getCond_propagateSubs_ne (by decide) (by decide) now ss subs,
    getCond_propagateSubs_ne (by decide) (by decide) now ss subs,
    getCond_propagateSubs_ne (by decide) (by decide) now ss subs⟩,
   ⟨propagateChans_subscriptionStatuses now ss chans,
    getCond_propagateChans_ne (by decide) (by decide) (by decide) now ss chans,
    getCond_propagateChans_ne (by decide) (by decide) (by decide) now ss chans⟩⟩

theorem condFalse_congr {conds1 conds2 : List Condition} {t : String}
    (h : getCond conds1 t = getCond conds2 t) : condFalse conds1 t = condFalse conds2 t := by
  simp only [condFalse]
  rw [h]

theorem condFalse_markCond_self {c : Condition} (h : c.ctype ≠ readyType) (now : Nat)
    (ss : SequenceStatus) :
    condFalse (markCond now ss c).conditions c.ctype = (c.status == ConditionStatus.cfalse) := by
  simp only [condFalse]
  rw [getCond_markCond_self h]

theorem condFalse_initCond (now : Nat) (conds : List Condition) (t t' : String) :
    condFalse (initCond now conds t) t' = condFalse conds t' := by
  simp only [initCond]
  cases hg : getCond conds t with
  | some c => rfl
  | none =>
      by_cases h : t' = t
      · subst h
        rw [condFalse_setCond _ _ rfl]
        simp [condFalse, hg]
      · exact condFalse_setCond_ne _ h _

theorem condFalse_initConditions (now : Nat) (ss : SequenceStatus) (t' : String) :
    condFalse (ss.initConditions now).conditions t' = condFalse ss.conditions t' := by
  simp only [SequenceStatus.initConditions, dependents, List.foldl_cons, List.foldl_nil]
  rw [condFalse_initCond, condFalse_initCond, condFalse_initCond, condFalse_initCond,
    condFalse_initCond]

theorem condFalse_setAddress_addressable (now : Nat) (ss : SequenceStatus)
    (addr : Option Addressable) :
    condFalse (ss.setAddress now addr).conditions addressableType = false := by
  cases addr with
  | none =>
      rw [setAddress_none]
      simp only [markUnknown]
      exact condFalse_markCond_self (show addressableType ≠ readyType by decide) now _
  | some a =>
      cases ha : a.url with
      | none =>
          rw [setAddress_some_noUrl now ss ha]
          simp only [markUnknown]
          exact condFalse_markCond_self (show addressableType ≠ readyType by decide) now _
      | some u =>
          rw [setAddress_some_url now ss ha]
          simp only [markTrue]
          exact condFalse_markCond_self (show addressableType ≠ readyType by decide) now _

/-- C8 counterexample: `MarkAddressableNotReady` — an operation that is not `setAddress`
and involves no `PropagateChannelStatuses` call (the `Address` field is untouched) —
changes the `Addressable` condition, refuting that `setAddress` is the only operation
writing that condition. -/
theorem setAddress_not_sole_writer :
    getCond ((applyOp 0 (SeqOp.addrNotReady "NotAddressable" "failed")
          emptyStatus).conditions) addressableType ≠
      getCond emptyStatus.conditions addressableType ∧
    (applyOp 0 (SeqOp.addrNotReady "NotAddressable" "failed") emptyStatus).address =
      emptyStatus.address := by
  constructor
  · decide
  · rfl

/-- C8 (amended): `setAddress` (reached only through `PropagateChannelStatuses`) is the
only operation of the engine that writes the `Address` field; the `Addressable` condition
is written only by `setAddress`, by `MarkAddressableNotReady`, and by
`InitializeConditions` (which seeds it `Unknown` when absent); and no operation ever sets
the `Addressable` condition to status `False` — it is `False` afterwards only if it
already was before. -/
theorem addressable_write_discipline (now : Nat) (op : SeqOp) (ss : SequenceStatus) :
    ((applyOp now op ss).address = ss.address ∨
      ∃ chans, op = SeqOp.propagateChannels chans) ∧
    (getCond (applyOp now op ss).conditions addressableType =
        getCond ss.conditions addressableType ∨
      (∃ chans, op = SeqOp.propagateChannels chans) ∨
      (∃ r m, op = SeqOp.addrNotReady r m) ∨ op = SeqOp.initConds) ∧
    (condFalse (applyOp now op ss).conditions addressableType = true →
      condFalse ss.conditions addressableType = true) := by
  cases op with
  | initConds =>
      refine ⟨Or.inl rfl, Or.inr (Or.inr (Or.inr rfl)), fun hf => ?_⟩
      simp only [applyOp] at hf
      rw [condFalse_initConditions] at hf
      exact hf
  | propagateSubscriptions subs =>
      have hg := getCond_propagateSubs_ne
        (show addressableType ≠ subscriptionsReadyType by decide)
        (show addressableType ≠ readyType by decide) now ss subs
      refine ⟨Or.inl (propagateSubs_address now ss subs), Or.inl hg, fun hf => ?_⟩
      simp only [applyOp] at hf
      rw [condFalse_congr hg] at hf
      exact hf
  | propagateChannels chans =>
      refine ⟨Or.inr ⟨chans, rfl⟩, Or.inr (Or.inl ⟨chans, rfl⟩), fun hf => ?_⟩
      simp only [applyOp] at hf
      cases chans with
      | nil =>
          have hg := getCond_propagateChans_nil_ne
            (show addressableType ≠ channelsReadyType by decide)
            (show addressableType ≠ readyType by decide) now ss
          rw [condFalse_congr hg] at hf
          exact hf
      | cons c rest =>
          rw [condFalse_congr (getCond_propagateChans_addressable_cons now ss c rest),
            condFalse_setAddress_addressable] at hf
          cases hf
  | chansNotReady r m =>
      have hg : getCond (ss.markChannelsNotReady now r m).conditions addressableType =
          getCond ss.conditions addressableType := by
        simp only [SequenceStatus.markChannelsNotReady, markUnknown]
        refine getCond_markCond_ne ?_ ?_ now ss
        · exact (by decide : addressableType ≠ channelsReadyType)
        · exact (by decide : addressableType ≠ readyType)
      refine ⟨Or.inl rfl, Or.inl hg, fun hf => ?_⟩
      simp only [applyOp] at hf
      rw [condFalse_congr hg] at hf
      exact hf
  | subsNotReady r m =>
      have hg : getCond (ss.markSubscriptionsNotReady now r m).conditions addressableType =
          getCond ss.conditions addressableType := by
        simp only [SequenceStatus.markSubscriptionsNotReady, markUnknown]
        refine getCond_markCond_ne ?_ ?_ now ss
        · exact (by decide : addressableType ≠ subscriptionsReadyType)
        · exact (by decide : addressableType ≠ readyType)
      refine ⟨Or.inl rfl, Or.inl hg, fun hf => ?_⟩
      simp only [applyOp] at hf
      rw [condFalse_congr hg] at hf
      exact hf
  | addrNotReady r m =>
      have hz : condFalse (ss.markAddressableNotReady now r m).conditions addressableType =
          false := by
        simp only [SequenceStatus.markAddressableNotReady, markUnknown]
        exact condFalse_markCond_self (show addressableType ≠ readyType by decide) now ss
      refine ⟨Or.inl rfl, Or.inr (Or.inr (Or.inl ⟨r, m, rfl⟩)), fun hf => ?_⟩
      simp only [applyOp] at hf
      rw [hz] at hf
      cases hf
  | oidcSucceeded =>
      have hg : getCond (ss.markOIDCIdentityCreatedSucceeded now).conditions
          addressableType = getCond ss.conditions addressableType := by
        simp only [SequenceStatus.markOIDCIdentityCreatedSucceeded, markTrue]
        refine getCond_markCond_ne ?_ ?_ now ss
        · exact (by decide : addressableType ≠ oidcIdentityCreatedType)
        · exact (by decide : addressableType ≠ readyType)
      refine ⟨Or.inl rfl, Or.inl hg, fun hf => ?_⟩
      simp only [applyOp] at hf
      rw [condFalse_congr hg] at hf
      exact hf
  | oidcSucceededWithReason r m =>
      have hg : getCond (ss.markOIDCIdentityCreatedSucceededWithReason now r m).conditions
          addressableType = getCond ss.conditions addressableType := by
        simp only [SequenceStatus.markOIDCIdentityCreatedSucceededWithReason,
          markTrueWithReason]
        refine getCond_markCond_ne ?_ ?_ now ss
        · exact (by decide : addressableType ≠ oidcIdentityCreatedType)
        · exact (by decide : addressableType ≠ readyType)
      refine ⟨Or.inl rfl, Or.inl hg, fun hf => ?_⟩
      simp only [applyOp] at hf
      rw [condFalse_congr hg] at hf
      exact hf
  | oidcFailed r m =>
      have hg : getCond (ss.markOIDCIdentityCreatedFailed now r m).conditions
          addressableType = getCond ss.conditions addressableType := by
        simp only [SequenceStatus.markOIDCIdentityCreatedFailed, markFalse]
        refine getCond_markCond_ne ?_ ?_ now ss
        · exact (by decide : addressableType ≠ oidcIdentityCreatedType)
        · exact (by decide : addressableType ≠ readyType)
      refine ⟨Or.inl rfl, Or.inl hg, fun hf => ?_⟩
      simp only [applyOp] at hf
      rw [condFalse_congr hg] at hf
      exact hf
  | oidcUnknown r m =>
      have hg : getCond (ss.markOIDCIdentityCreatedUnknown now r m).conditions
          addressableType = getCond ss.conditions addressableType := by
        simp only [SequenceStatus.markOIDCIdentityCreatedUnknown, markUnknown]
        refine getCond_markCond_ne ?_ ?_ now ss
        · exact (by decide : addressableType ≠ oidcIdentityCreatedType)
        · exact (by decide : addressableType ≠ readyType)
      refine ⟨Or.inl rfl, Or.inl hg, fun hf => ?_⟩
      simp only [applyOp] at hf
      rw [condFalse_congr hg] at hf
      exact hf

/-! ### Idempotence machinery -/

theorem recomputeReady_def (now : Nat) (conds : List Condition) :
    recomputeReady now conds = setCond conds (readyCondOf now conds) := rfl

theorem readyCondOf_congr {conds1 conds2 : List Condition} (now : Nat)
    (h1 : allDepsTrue conds1 = allDepsTrue conds2)
    (h2 : anyDepFalse conds1 = anyDepFalse conds2) :
    readyCondOf now conds1 = readyCondOf now conds2 := by
  simp only [readyCondOf]
  rw [h1, h2]

theorem recomputeReady_idem (now : Nat) (conds : List Condition) :
    recomputeReady now (recomputeReady now conds) = recomputeReady now conds := by
  conv_lhs => rw [recomputeReady_def]
  rw [readyCondOf_congr now (allDepsTrue_recomputeReady now conds)
    (anyDepFalse_recomputeReady now conds)]
  exact setCond_of_stored (stored_setCond_self conds _)

theorem stored_recomputeReady {conds : List Condition} {c : Condition}
    (h : c.ctype ≠ readyType) (hs : Stored conds c) (now : Nat) :
    Stored (recomputeReady now conds) c := by
  rw [recomputeReady_def]
  exact stored_setCond_ne (Ne.symm h) hs

theorem setCond_recompute_idem {c : Condition} (h : c.ctype ≠ readyType) (now : Nat)
    (conds : List Condition) :
    recomputeReady now (setCond (recomputeReady now (setCond conds c)) c) =
      recomputeReady now (setCond conds c) := by
  rw [setCond_of_stored (stored_recomputeReady h (stored_setCond_self conds c) now)]
  exact recomputeReady_idem now (setCond conds c)

theorem setCond_recompute_chain_idem {c1 c2 : Condition} (h1 : c1.ctype ≠ readyType)
    (h2 : c2.ctype ≠ readyType) (h12 : c2.ctype ≠ c1.ctype) (now : Nat)
    (conds : List Condition) :
    recomputeReady now (setCond (recomputeReady now (setCond
        (recomputeReady now (setCond (recomputeReady now (setCond conds c1)) c2))
        c1)) c2) =
      recomputeReady now (setCond (recomputeReady now (setCond conds c1)) c2) := by
  have s1 : Stored (recomputeReady now (setCond conds c1)) c1 :=
    stored_recomputeReady h1 (stored_setCond_self conds c1) now
  have s2 : Stored (setCond (recomputeReady now (setCond conds c1)) c2) c1 :=
    stored_setCond_ne h12 s1
  have s3 : Stored
      (recomputeReady now (setCond (recomputeReady now (setCond conds c1)) c2)) c1 :=
    stored_recomputeReady h1 s2 now
  rw [setCond_of_stored s3, recomputeReady_idem]
  have s4 : Stored
      (recomputeReady now (setCond (recomputeReady now (setCond conds c1)) c2)) c2 :=
    stored_recomputeReady h2 (stored_setCond_self _ c2) now
  rw [setCond_of_stored s4]
  exact recomputeReady_idem now _

theorem SequenceStatus_eq_of_fields {a b : SequenceStatus} (h1 : a.conditions = b.conditions)
    (h2 : a.subscriptionStatuses = b.subscriptionStatuses)
    (h3 : a.channelStatuses = b.channelStatuses) (h4 : a.address = b.address) : a = b := by
  cases a
  cases b
  simp only at h1 h2 h3 h4
  rw [h1, h2, h3, h4]

theorem subsAggCondOf_ctype (now : Nat) (subs : List Subscription) :
    (subsAggCondOf now subs).ctype = subscriptionsReadyType := by
  simp only [subsAggCondOf]
  split <;> rfl

theorem chanAggCondOf_ctype (now : Nat) (chans : List Channelable) :
    (chanAggCondOf now chans).ctype = channelsReadyType := by
  simp only [chanAggCondOf]
  split <;> rfl

theorem addrCondOf_ctype (now : Nat) (addr : Option Addressable) :
    (addrCondOf now addr).ctype = addressableType := by
  cases addr with
  | none => rfl
  | some a =>
      cases a with
      | mk u => cases u <;> rfl

theorem setAddress_conditions_formula (now : Nat) (ssX : SequenceStatus)
    (addr : Option Addressable) :
    (ssX.setAddress now addr).conditions =
      recomputeReady now (setCond ssX.conditions (addrCondOf now addr)) := by
  cases addr with
  | none => rfl
  | some a =>
      cases a with
      | mk u => cases u <;> rfl

theorem setAddress_address (now : Nat) (ssX : SequenceStatus) (addr : Option Addressable) :
    (ssX.setAddress now addr).address =
      (match addr with
       | none => { url := none }
       | some a =>
           match a.url with
           | none => { url := none }
           | some u => { url := some u } : Addressable) := by
  cases addr with
  | none => rfl
  | some a =>
      cases a with
      | mk u => cases u <;> rfl

theorem propagateSubs_conditions_formula (now : Nat) (ssX : SequenceStatus)
    (subs : List Subscription) :
    (ssX.propagateSubscriptionStatuses now subs).conditions =
      recomputeReady now (setCond ssX.conditions (subsAggCondOf now subs)) := by
  simp only [SequenceStatus.propagateSubscriptionStatuses,
    SequenceStatus.markSubscriptionsNotReady, markTrue, markUnknown, markCond, subsAggCondOf]
  by_cases hA : (subs.length != 0 && subs.all subscriptionReady) = true
  · rw [if_pos hA, if_pos hA]
  · rw [if_neg hA, if_neg hA]

theorem propagateChans_nil_conditions_formula (now : Nat) (ssX : SequenceStatus) :
    (ssX.propagateChannelStatuses now []).conditions =
      recomputeReady now (setCond ssX.conditions (chanAggCondOf now [])) := rfl

theorem propagateChans_cons_conditions_formula (now : Nat) (ssX : SequenceStatus)
    (c : Channelable) (rest : List Channelable) :
    (ssX.propagateChannelStatuses now (c :: rest)).conditions =
      recomputeReady now (setCond
        (recomputeReady now (setCond ssX.conditions (addrCondOf now c.address)))
        (chanAggCondOf now (c :: rest))) := by
  rw [← setAddress_conditions_formula]
  simp only [SequenceStatus.propagateChannelStatuses, SequenceStatus.markChannelsNotReady,
    markTrue, markUnknown, markCond, chanAggCondOf]
  by_cases hA : ((c :: rest).length != 0 && (c :: rest).all channelReady) = true
  · rw [if_pos hA, if_pos hA]
  · rw [if_neg hA, if_neg hA]

/-- C9: the propagation operations are idempotent: applying the same operation twice with
the identical input (including the sampled timestamp) yields exactly the status record of
a single application, stored per-entry ready conditions included. -/
theorem propagate_idempotent (now : Nat) (ss : SequenceStatus) (subs : List Subscription)
    (chans : List Channelable) :
    (ss.propagateSubscriptionStatuses now subs).propagateSubscriptionStatuses now subs =
      ss.propagateSubscriptionStatuses now subs ∧
    (ss.propagateChannelStatuses now chans).propagateChannelStatuses now chans =
      ss.propagateChannelStatuses now chans := by
  constructor
  · apply SequenceStatus_eq_of_fields
    · rw [propagateSubs_conditions_formula, propagateSubs_conditions_formula]
      exact setCond_recompute_idem
        (by rw [subsAggCondOf_ctype]; decide) now ss.conditions
    · rw [propagateSubs_subscriptionStatuses, propagateSubs_subscriptionStatuses]
    · exact propagateSubs_channelStatuses now _ subs
    · exact propagateSubs_address now _ subs
  · apply SequenceStatus_eq_of_fields
    · cases chans with
      | nil =>
          rw [propagateChans_nil_conditions_formula, propagateChans_nil_conditions_formula]
          exact setCond_recompute_idem
            (by rw [chanAggCondOf_ctype]; decide) now ss.conditions
      | cons c rest =>
          rw [propagateChans_cons_conditions_formula,
            propagateChans_cons_conditions_formula]
          exact setCond_recompute_chain_idem
            (by rw [addrCondOf_ctype]; decide)
            (by rw [chanAggCondOf_ctype]; decide)
            (by rw [chanAggCondOf_ctype, addrCondOf_ctype]; decide) now ss.conditions
    · exact propagateChans_subscriptionStatuses now _ chans
    · rw [propagateChans_channelStatuses, propagateChans_channelStatuses]
    · cases chans with
      | nil => exact propagateChans_address_nil now _
      | cons c rest =>
          rw [propagateChans_address_cons, propagateChans_address_cons,
            setAddress_address, setAddress_address]

/-- Witness for the amended C8 at a concrete operation and status. -/
theorem addressable_write_discipline_witness :
    (condFalse (applyOp 0 SeqOp.oidcSucceeded emptyStatus).conditions addressableType =
        true →
      condFalse emptyStatus.conditions addressableType = true) ∧
    (applyOp 0 SeqOp.oidcSucceeded emptyStatus).address = emptyStatus.address :=
  ⟨(addressable_write_discipline 0 SeqOp.oidcSucceeded emptyStatus).2.2,
    (addressable_write_discipline 0 SeqOp.oidcSucceeded emptyStatus).1.resolve_right
      (fun ⟨_, hc⟩ => by cases hc)⟩

end SequenceLifecycle
